import Mathlib

/-!
Verification of the Akita Sensor Network Integration Plugin (ASNIP) core
(src/src/asnip/asnip.py) via a shallow embedding.

Python values flowing through the plugin (JSON documents, dict payloads,
sensor readings) are modelled by the inductive type Json below, with
Json.null standing for the Python None object.  External effects (random
draws, subprocess execution, the mesh transport, the JSON library, wall
clock time) are passed in as explicit function parameters or oracles;
every embedded operation is a pure Lean function of those inputs.
-/

namespace ASNIP

/-- A Python/JSON value.  obj models a Python dict; its keys are Json
values because the collected-data dict is keyed by whatever the config
supplies as sensor names, though every dict coming from the json library
has string keys.  Json.null doubles as the Python None object, matching
dict.get semantics where a missing key and a key stored as None are
indistinguishable. -/
inductive Json where
  | null : Json
  | bool (b : Bool) : Json
  | num (n : Int) : Json
  | str (s : String) : Json
  | arr (elems : List Json) : Json
  | obj (fields : List (Json × Json)) : Json

mutual

/-- Decidable equality on Json values (the derive handler does not
support this nested inductive, so it is spelled out). -/
def Json.decEq : (a b : Json) → Decidable (a = b)
  | .null, .null => isTrue rfl
  | .bool x, .bool y =>
    if h : x = y then isTrue (h ▸ rfl) else isFalse (by simp [h])
  | .num x, .num y =>
    if h : x = y then isTrue (h ▸ rfl) else isFalse (by simp [h])
  | .str x, .str y =>
    if h : x = y then isTrue (h ▸ rfl) else isFalse (by simp [h])
  | .arr xs, .arr ys =>
    match Json.decEqList xs ys with
    | isTrue h => isTrue (h ▸ rfl)
    | isFalse h => isFalse (by simp [h])
  | .obj xs, .obj ys =>
    match Json.decEqFields xs ys with
    | isTrue h => isTrue (h ▸ rfl)
    | isFalse h => isFalse (by simp [h])
  | .null, .bool _ | .null, .num _ | .null, .str _ | .null, .arr _
  | .null, .obj _ | .bool _, .null | .bool _, .num _ | .bool _, .str _
  | .bool _, .arr _ | .bool _, .obj _ | .num _, .null | .num _, .bool _
  | .num _, .str _ | .num _, .arr _ | .num _, .obj _ | .str _, .null
  | .str _, .bool _ | .str _, .num _ | .str _, .arr _ | .str _, .obj _
  | .arr _, .null | .arr _, .bool _ | .arr _, .num _ | .arr _, .str _
  | .arr _, .obj _ | .obj _, .null | .obj _, .bool _ | .obj _, .num _
  | .obj _, .str _ | .obj _, .arr _ =>
    isFalse (fun h => Json.noConfusion h)

def Json.decEqList : (a b : List Json) → Decidable (a = b)
  | [], [] => isTrue rfl
  | [], _ :: _ => isFalse (by simp)
  | _ :: _, [] => isFalse (by simp)
  | x :: xs, y :: ys =>
    match Json.decEq x y, Json.decEqList xs ys with
    | isTrue h1, isTrue h2 => isTrue (by rw [h1, h2])
    | isFalse h1, _ => isFalse (by simp [h1])
    | _, isFalse h2 => isFalse (by simp [h2])

def Json.decEqFields : (a b : List (Json × Json)) → Decidable (a = b)
  | [], [] => isTrue rfl
  | [], _ :: _ => isFalse (by simp)
  | _ :: _, [] => isFalse (by simp)
  | (k1, v1) :: xs, (k2, v2) :: ys =>
    match Json.decEq k1 k2, Json.decEq v1 v2, Json.decEqFields xs ys with
    | isTrue h1, isTrue h2, isTrue h3 => isTrue (by rw [h1, h2, h3])
    | isFalse h1, _, _ => isFalse (by simp [h1])
    | _, isFalse h2, _ => isFalse (by simp [h2])
    | _, _, isFalse h3 => isFalse (by simp [h3])

end

instance : DecidableEq Json := Json.decEq

/-- Python truthiness of a value: None, False, 0, empty string, empty
list and empty dict are falsy; everything else is truthy. -/
def Json.truthy : Json → Bool
  | .null => false
  | .bool b => b
  | .num n => n != 0
  | .str s => !s.isEmpty
  | .arr xs => !xs.isEmpty
  | .obj fs => !fs.isEmpty

/-- A Python dict as an association list (first binding wins on lookup,
as in the model all dicts the plugin reads come without duplicate keys). -/
abbrev JDict := List (Json × Json)

/-- dict[k] access for a string key: some value, or none (KeyError). -/
def jdGet (d : JDict) (k : String) : Option Json :=
  d.lookup (.str k)

/-- dict.get(k, default) for a string key. -/
def jdGetD (d : JDict) (k : String) (default : Json) : Json :=
  (jdGet d k).getD default

/-- str.startswith modelled over the character sequence (the builtin
String.startsWith is opaque to kernel reduction). -/
def strStartsWith (s p : String) : Bool :=
  p.data.isPrefixOf s.data

/-- str.strip with no argument: remove leading and trailing whitespace
(modelled over the character sequence for the same reason). -/
def strTrim (s : String) : String :=
  ⟨((s.data.dropWhile Char.isWhitespace).reverse.dropWhile
      Char.isWhitespace).reverse⟩

/-- Whether a Python value is hashable, i.e. usable in a dict membership
test; lists and dicts raise TypeError when used as keys. -/
def Json.hashable : Json → Bool
  | .arr _ => false
  | .obj _ => false
  | _ => true

/-! ## Reader registry

The keys of self.sensor_reader_map, fixed at construction. -/

/-- The type tags registered in sensor_reader_map. -/
def registryKeys : List String :=
  ["simulated_temperature", "simulated_humidity", "random_value",
   "static_value", "custom_script", "bme280_temperature",
   "bme280_humidity", "bme280_pressure"]

/-! ## Configuration load (_load_sensor_configurations)

The validation pass over one entry of the sensors list.  The source
computes conf_name as sensor_conf.get('name', 'UnnamedSensor') -- note
the truthy default -- and conf_type as sensor_conf.get('type'), keeps an
entry when both are truthy, the type is a registered key of
sensor_reader_map, and the type is not a bme280_* tag while the BME280
library is unavailable. -/

/-- Whether one sensor entry survives the validation loop. -/
def keepSensorConf (bme280Available : Bool) (c : JDict) : Bool :=
  let confName := jdGetD c "name" (.str "UnnamedSensor")
  let confType := jdGetD c "type" .null
  confName.truthy && confType.truthy &&
    (match confType with
     | .str t => decide (t ∈ registryKeys)
         && !(strStartsWith t "bme280_" && !bme280Available)
     | _ => false)

/-- Whether processing one entry raises: a truthy unhashable type value
makes the membership test "conf_type not in self.sensor_reader_map"
raise TypeError, which escapes the per-entry loop and is caught by the
outermost handler of _load_sensor_configurations. -/
def entryRaises (c : JDict) : Bool :=
  (jdGetD c "name" (.str "UnnamedSensor")).truthy
    && (jdGetD c "type" .null).truthy
    && !(jdGetD c "type" .null).hashable

/-- _load_sensor_configurations applied to the parsed sensors list: the
per-entry loop builds valid_configs, but an exception at any entry is
caught by the outer handler, which resets the whole configuration set to
the empty list. -/
def loadSensorConfigurations (bme280Available : Bool)
    (entries : List JDict) : List JDict :=
  if entries.any entryRaises then []
  else entries.filter (keepSensorConf bme280Available)

/-! ## Collector (_get_sensor_data)

A reader invocation either returns a Python value (possibly None) or
raises; the per-tick behaviour of the readers (random draws, subprocess
runs, hardware access) is supplied as an oracle mapping each
configuration to its outcome this tick. -/

/-- Outcome of invoking one sensor reader this tick. -/
inductive ReadResult where
  | ok (v : Option Json) : ReadResult
  | exc : ReadResult
  deriving DecidableEq

/-- sensor_conf.get("enabled", False) interpreted as a truth value. -/
def confEnabled (c : JDict) : Bool :=
  (jdGetD c "enabled" (.bool false)).truthy

/-- Whether sensor_reader_map.get(sensor_type) finds a reader: only a
string tag among the registered keys does. -/
def tyRegistered (ty : Json) : Bool :=
  match ty with
  | .str t => decide (t ∈ registryKeys)
  | _ => false

/-- The per-sensor collection loop of _get_sensor_data.  For each entry:
skip when not enabled; read sensor_conf["name"] and sensor_conf["type"]
(a missing key raises KeyError outside the try block, aborting the whole
tick, hence the Except); look the type up in sensor_reader_map (an
unhashable type raises TypeError, also outside the try); when a reader
is found, invoke it inside the failure boundary -- a present value is
inserted under the sensor name by collected_data[sensor_name] = value,
which itself raises TypeError for an unhashable name, but that insertion
sits inside the per-sensor try, so the key is simply omitted and the
loop continues; None results and reader exceptions likewise leave the
key out. -/
def collectData (outcome : JDict → ReadResult) :
    List JDict → Except Unit (List (Json × Json))
  | [] => .ok []
  | c :: rest =>
    if !confEnabled c then collectData outcome rest
    else
      match jdGet c "name", jdGet c "type" with
      | some nm, some ty =>
        if ty.hashable then
          if tyRegistered ty then
            match outcome c with
            | .ok (some v) =>
              if nm.hashable then
                (collectData outcome rest).map (fun d => (nm, v) :: d)
              else collectData outcome rest
            | .ok none => collectData outcome rest
            | .exc => collectData outcome rest
          else collectData outcome rest
        else .error ()
      | _, _ => .error ()

/-- Node identity extracted from iface.getMyNodeInfo().  The argument is
none for a falsy node_info (the None object or an empty dict); otherwise
the id is node_info.get("myNodeNum") and the name node_info.get("longName"),
each None when absent. -/
def nodeIdentity (nodeInfo : Option JDict) : Json × Json :=
  match nodeInfo with
  | none => (.null, .str "Unknown Local Node")
  | some d =>
    if d.isEmpty then (.null, .str "Unknown Local Node")
    else (jdGetD d "myNodeNum" .null, jdGetD d "longName" .null)

/-- The aggregated sensor payload dict built at the end of
_get_sensor_data.  Time is modelled as an integer tick count. -/
structure Payload where
  source_node_num : Json
  source_node_name : Json
  timestamp : Nat
  data : List (Json × Json)
  deriving DecidableEq

/-- _get_sensor_data: returns None when no interface is bound; otherwise
runs the collection loop (whose KeyError and TypeError escape) and stamps
the payload with identity and time. -/
def getSensorData (outcome : JDict → ReadResult)
    (iface : Option (Option JDict)) (configs : List JDict)
    (now : Nat) : Except Unit (Option Payload) :=
  match iface with
  | none => .ok none
  | some nodeInfo =>
    (collectData outcome configs).map (fun d =>
      let idName := nodeIdentity nodeInfo
      some { source_node_num := idName.1, source_node_name := idName.2,
             timestamp := now, data := d })

/-! ## Custom script reader (_read_custom_script_value)

subprocess.run is an external effect, supplied as an oracle from the
script path and timeout values to the run outcome. -/

/-- Outcome of the external command, as observed through subprocess.run
with check=False: a completed process with its exit status and captured
output, a timeout, a missing executable, or any other failure. -/
inductive ScriptOutcome where
  | completed (returncode : Int) (stdout : String) (stderr : String)
  | timedOut
  | fileNotFound
  | otherError
  deriving DecidableEq

/-- _read_custom_script_value: absent script_path (falsy) returns None
without running anything; otherwise the command runs exactly once and
only a zero exit status yields a value, the trimmed standard output. -/
def readCustomScriptValue (run : Json → Json → ScriptOutcome)
    (params : JDict) : Option Json :=
  let scriptPath := jdGetD params "script_path" .null
  let timeout := jdGetD params "timeout" (.num 5)
  if !scriptPath.truthy then none
  else
    match run scriptPath timeout with
    | .completed rc out _ => if rc = 0 then some (.str (strTrim out)) else none
    | .timedOut => none
    | .fileNotFound => none
    | .otherError => none

/-! ## Log store persistence (_load_log_data / _save_log_data)

The backing file is modelled as missing or present with raw string
content.  The json library is external: json.loads is an oracle
parse : String -> Option Json (none = JSONDecodeError) and json.dumps an
oracle ser : Json -> String.  json.dump raises TypeError on a dict whose
keys are not str/int/bool/None; _save_log_data catches that and leaves
the file untouched. -/

/-- State of the log file on disk. -/
inductive FileState where
  | missing : FileState
  | present (content : String) : FileState
  deriving DecidableEq

mutual

/-- Whether json.dump serializes the value without raising: every dict
key along the way must be a string, number, boolean or None (the shapes
json.dump accepts as keys). -/
def Json.serializable : Json → Bool
  | .null => true
  | .bool _ => true
  | .num _ => true
  | .str _ => true
  | .arr xs => Json.serializableList xs
  | .obj fs => Json.serializableFields fs

def Json.serializableList : List Json → Bool
  | [] => true
  | x :: xs => x.serializable && Json.serializableList xs

def Json.serializableFields : List (Json × Json) → Bool
  | [] => true
  | (k, v) :: fs =>
    (match k with
     | .str _ => true | .num _ => true | .bool _ => true
     | .null => true | _ => false)
      && v.serializable && Json.serializableFields fs

end

/-- _save_log_data on an entry list: rewrites the whole file with the
serialized array, except that a TypeError from json.dump is caught and
logged, leaving the previous file state in place. -/
def saveLogData (ser : Json → String) (entries : List Json)
    (oldFile : FileState) : FileState :=
  if (Json.arr entries).serializable then .present (ser (.arr entries))
  else oldFile

/-- _load_log_data: yields the in-memory sequence and the resulting file
state.  A missing file and a file whose content is blank both give the
empty list with no write; malformed JSON and a non-array document give
the empty list and a reset write of the empty array; an array loads
as-is. -/
def loadLogData (parse : String → Option Json) (ser : Json → String)
    (fs : FileState) : List Json × FileState :=
  match fs with
  | .missing => ([], .missing)
  | .present content =>
    if (strTrim content).isEmpty then ([], .present content)
    else
      match parse content with
      | none => ([], saveLogData ser [] (.present content))
      | some (.arr xs) => (xs, .present content)
      | some _ => ([], saveLogData ser [] (.present content))

/-! ## Receive path (onReceive) -/

/-- The port number reserved for ASNIP data
(portnums_pb2.PortNum.PRIVATE_APP_1), as the value found under the
portnum key of a decoded packet. -/
def ASNIP_PORTNUM : Json := .num 256

/-- The decoded section of an inbound packet: packet.get('decoded') with
its portnum value (null when absent) and payload bytes (the empty list
covers both a missing payload and empty bytes, which the source treats
identically through its falsiness check). -/
structure DecodedSection where
  portnum : Json
  payload : List Nat
  deriving DecidableEq

/-- An inbound packet as accessed by onReceive: the decoded section (none
when packet.get('decoded') is falsy) and the fromId, rxRssi and rxSnr
values (null when absent, matching dict.get). -/
structure Packet where
  decoded : Option DecodedSection
  fromId : Json
  rxRssi : Json
  rxSnr : Json
  deriving DecidableEq

/-- The mutable state onReceive touches: the in-memory log sequence and
the backing file. -/
structure SysState where
  log : List Json
  file : FileState
  deriving DecidableEq

/-- onReceive.  Parameters: dec is the external payload decode
(payload_bytes.decode('utf-8') followed by json.loads; none covers both
UnicodeDecodeError and JSONDecodeError), nodeNumFn is
meshtastic.util.nodeNumFromString (which may raise on a malformed id),
ser the json serializer, ifacePresent whether self.iface is bound.
Returns the new state and whether the packet was delegated to
super().onReceive.  Control flow mirrors the source: no interface
delegates immediately; a falsy decoded section or a non-matching portnum
falls through to the final delegation; an ASNIP-port packet with falsy
payload bytes returns without delegating; a payload that fails to decode,
decodes to a non-dict (whose .get raises AttributeError into the generic
handler), or whose truthy fromId makes nodeNumFromString raise, falls
through to the delegation without appending; otherwise the remote entry
is appended, the log saved, and the handler returns without delegating. -/
def onReceive (dec : List Nat → Option Json)
    (nodeNumFn : Json → Except Unit Json) (ser : Json → String)
    (ifacePresent : Bool) (now : Nat) (s : SysState) (pkt : Packet) :
    SysState × Bool :=
  if !ifacePresent then (s, true)
  else
    match pkt.decoded with
    | none => (s, true)
    | some d =>
      if d.portnum = ASNIP_PORTNUM then
        if d.payload.isEmpty then (s, false)
        else
          match dec d.payload with
          | none => (s, true)
          | some j =>
            match j with
            | .obj fields =>
              match (if pkt.fromId.truthy then nodeNumFn pkt.fromId
                     else .ok .null) with
              | .error _ => (s, true)
              | .ok num =>
                let entry : Json := .obj
                  [(.str "log_timestamp", .num now),
                   (.str "type", .str "remote"),
                   (.str "source_node_hex", pkt.fromId),
                   (.str "source_node_num", num),
                   (.str "rssi", pkt.rxRssi),
                   (.str "snr", pkt.rxSnr),
                   (.str "payload", .obj fields)]
                let l := s.log ++ [entry]
                (⟨l, saveLogData ser l s.file⟩, false)
            | _ => (s, true)
      else (s, true)

/-- Field access on a log-entry object, for stating properties of
entries: the value stored under a string key of a dict, none for
non-dicts or absent keys. -/
def Json.field (j : Json) (k : String) : Option Json :=
  match j with
  | .obj fs => fs.lookup (.str k)
  | _ => none

/-! ## Broadcast tick (_broadcast_sensor_data_loop body) -/

/-- Lowercase hex rendering of a nonnegative integer
(Nat.toDigits 16 yields lowercase digits, most significant first). -/
def hexDigits (n : Nat) : String :=
  (Nat.toDigits 16 n).asString

/-- Python format(n, "08x"): zero-padded to width 8, the sign counting
toward the width for a negative input. -/
def hex8 (n : Int) : String :=
  if n < 0 then
    let s := hexDigits n.natAbs
    "-" ++ String.mk (List.replicate (7 - s.length) '0') ++ s
  else
    let s := hexDigits n.toNat
    String.mk (List.replicate (8 - s.length) '0') ++ s

/-- The source_node_hex field of a self entry:
f"!{num:08x}" when the payload carries a node number, None otherwise.
The format specifier raises (ValueError caught by the loop's generic
handler) when the stored id is not an integer. -/
def hexOfNodeNum : Json → Except Unit Json
  | .null => .ok .null
  | .num n => .ok (.str ("!" ++ hex8 n))
  | _ => .error ()

/-- The payload dict as it is stored inside a log entry. -/
def payloadToJson (p : Payload) : Json :=
  .obj [(.str "source_node_num", p.source_node_num),
        (.str "source_node_name", p.source_node_name),
        (.str "timestamp", .num p.timestamp),
        (.str "data", .obj p.data)]

/-- The self log entry dict built by one iteration of
_broadcast_sensor_data_loop, in source field order; building it raises
only via the hex format of a non-integer node id. -/
def selfLogEntry (now : Nat) (p : Payload) : Except Unit Json :=
  match hexOfNodeNum p.source_node_num with
  | .error e => .error e
  | .ok hexJ =>
    .ok (.obj [(.str "log_timestamp", .num now),
               (.str "type", .str "self"),
               (.str "source_node_num", p.source_node_num),
               (.str "source_node_hex", hexJ),
               (.str "rssi", .null),
               (.str "snr", .null),
               (.str "payload", payloadToJson p)])

/-- One iteration of the broadcast loop after _get_sensor_data produced
payload p: append the self entry and save.  An exception while building
the entry is caught by the loop's handler and leaves the state unchanged
(the append had not happened yet). -/
def tickStep (ser : Json → String) (now : Nat) (s : SysState)
    (p : Payload) : SysState :=
  match selfLogEntry now p with
  | .error _ => s
  | .ok e =>
    let l := s.log ++ [e]
    ⟨l, saveLogData ser l s.file⟩

/-! ## The log-store event machine

The two actors that mutate the log store are the broadcast loop (one
tick per collected payload) and the receive handler.  An execution is a
sequence of such events, each carrying its own wall-clock stamp;
interleaving is modelled at event granularity, each append-and-save
being one atomic step. -/

/-- One log-store event: a broadcast tick over a collected payload, or
an inbound packet delivered to onReceive. -/
inductive Event where
  | tick (now : Nat) (p : Payload) : Event
  | recv (now : Nat) (pkt : Packet) : Event

/-- Apply one event to the log-store state (the receive handler runs with
the interface bound, as it is whenever the system is running). -/
def stepEvent (dec : List Nat → Option Json)
    (nodeNumFn : Json → Except Unit Json) (ser : Json → String)
    (s : SysState) : Event → SysState
  | .tick now p => tickStep ser now s p
  | .recv now pkt => (onReceive dec nodeNumFn ser true now s pkt).1

/-- Run a sequence of events from a starting state. -/
def runEvents (dec : List Nat → Option Json)
    (nodeNumFn : Json → Except Unit Json) (ser : Json → String)
    (s : SysState) (evs : List Event) : SysState :=
  evs.foldl (stepEvent dec nodeNumFn ser) s

/-- The remote log entry a packet produces when it is accepted, replaying
the accept path of onReceive: ASNIP port, nonempty payload bytes, decode
to a dict, and a fromId that nodeNumFromString can handle. -/
def remoteEntry (dec : List Nat → Option Json)
    (nodeNumFn : Json → Except Unit Json) (now : Nat) (pkt : Packet) :
    Option Json :=
  match pkt.decoded with
  | none => none
  | some d =>
    if d.portnum = ASNIP_PORTNUM && !d.payload.isEmpty then
      match dec d.payload with
      | some (.obj fields) =>
        match (if pkt.fromId.truthy then nodeNumFn pkt.fromId
               else .ok .null) with
        | .ok num =>
          some (.obj [(.str "log_timestamp", .num now),
                      (.str "type", .str "remote"),
                      (.str "source_node_hex", pkt.fromId),
                      (.str "source_node_num", num),
                      (.str "rssi", pkt.rxRssi),
                      (.str "snr", pkt.rxSnr),
                      (.str "payload", .obj fields)])
        | .error _ => none
      | _ => none
    else none

/-- The log entry contributed by one event, if the event completes its
append: a tick contributes its self entry unless building it raised, a
receipt contributes its remote entry when accepted. -/
def entryOf (dec : List Nat → Option Json)
    (nodeNumFn : Json → Except Unit Json) : Event → Option Json
  | .tick now p => (selfLogEntry now p).toOption
  | .recv now pkt => remoteEntry dec nodeNumFn now pkt

/-- Whether an event is a completed self-broadcast tick. -/
def isCompletedTick : Event → Bool
  | .tick now p => (selfLogEntry now p).toOption.isSome
  | .recv _ _ => false

/-- Whether an event is an accepted remote receipt. -/
def isAcceptedRecv (dec : List Nat → Option Json)
    (nodeNumFn : Json → Except Unit Json) : Event → Bool
  | .tick _ _ => false
  | .recv now pkt => (remoteEntry dec nodeNumFn now pkt).isSome

/-- The persisted form is the serialization of some entry sequence, i.e.
a syntactically valid JSON array. -/
def FileValid (ser : Json → String) (fs : FileState) : Prop :=
  ∃ l : List Json, fs = .present (ser (.arr l))

/-! ## Lifecycle stop (stop) -/

/-- The plugin state touched by stop: the cancellation signal, the
outbound queue (Json.null is the sentinel object), which worker threads
were created, the log store and its file, and whether an interface is
bound.  Thread join is an external scheduling effect with no modelled
state change. -/
structure PluginState where
  running : Bool
  messageQueue : List Json
  hasQueueProcessorThread : Bool
  hasBroadcastThread : Bool
  log : List Json
  file : FileState
  ifacePresent : Bool
  deriving DecidableEq

/-- stop (the source method takes no timeout argument): clear the
running event, put a None sentinel on the queue when a processor thread
exists, join each worker with a hardcoded 5-second timeout (logging,
not killing, a worker that is still alive), and save the log when an
interface is bound.  The queue is never drained. -/
def stop (ser : Json → String) (s : PluginState) : PluginState :=
  { s with
    running := false,
    messageQueue :=
      if s.hasQueueProcessorThread then s.messageQueue ++ [.null]
      else s.messageQueue,
    file := if s.ifacePresent then saveLogData ser s.log s.file
            else s.file }

/-- The join timeout hardcoded in stop, in seconds. -/
def STOP_JOIN_TIMEOUT : Nat := 5

/-- A well-formed loaded configuration: it carries a name key and a type
key whose value is a registered string tag (what §3 of the specification
requires of every retained SensorConfig). -/
def confWF (c : JDict) : Bool :=
  (jdGet c "name").isSome &&
  (match jdGet c "type" with
   | some (.str t) => decide (t ∈ registryKeys)
   | _ => false)

/-- Whether a configuration's name value is usable as a dict key.  The
spec's data model (§3) takes sensor names to be strings; the program
only needs the name to be hashable for the collected_data insertion not
to raise. -/
def confNameHashable (c : JDict) : Bool :=
  ((jdGet c "name").getD .null).hashable

/-! ## Theorems -/

/-- Characterization of the collection loop over well-formed
configurations: it never raises, and a name appears among the collected
keys exactly when some configuration carries it, is enabled, has a
hashable (key-usable) name, and its reader returned a present value. -/
theorem collectData_char (outcome : JDict → ReadResult) :
    ∀ (configs : List JDict), (∀ c ∈ configs, confWF c = true) →
    ∃ d, collectData outcome configs = .ok d ∧
      ∀ nm : Json, nm ∈ d.map Prod.fst ↔
        ∃ c ∈ configs, jdGet c "name" = some nm ∧ confEnabled c = true ∧
          nm.hashable = true ∧ ∃ v, outcome c = .ok (some v)
  | [], _ => ⟨[], rfl, by simp⟩
  | c :: rest, h => by
    obtain ⟨d, hd, hchar⟩ := collectData_char outcome rest
      (fun c' hc' => h c' (List.mem_cons_of_mem _ hc'))
    have hc := h c (List.mem_cons_self _ _)
    rw [confWF, Bool.and_eq_true] at hc
    obtain ⟨hname, htype⟩ := hc
    obtain ⟨nm0, hnm0⟩ := Option.isSome_iff_exists.mp hname
    rcases hty : jdGet c "type" with _ | ty
    · rw [hty] at htype; simp at htype
    · rw [hty] at htype
      cases ty with
      | str t =>
        have ht : t ∈ registryKeys := of_decide_eq_true htype
        by_cases hen : confEnabled c = true
        · rcases hout : outcome c with v | _
          · rcases v with _ | v
            · refine ⟨d, ?_, ?_⟩
              · simp [collectData, hen, hnm0, hty, Json.hashable,
                      tyRegistered, ht, hout, hd]
              · intro nm
                rw [hchar nm]
                constructor
                · rintro ⟨c', hc', hp⟩
                  exact ⟨c', List.mem_cons_of_mem _ hc', hp⟩
                · rintro ⟨c', hc', hget, hen', hh', v', hout'⟩
                  rcases List.mem_cons.mp hc' with rfl | hc'
                  · rw [hout] at hout'
                    exact absurd (ReadResult.ok.inj hout') (by simp)
                  · exact ⟨c', hc', hget, hen', hh', v', hout'⟩
            · have hst : (Json.str t).hashable = true := rfl
              by_cases hh : nm0.hashable = true
              · refine ⟨(nm0, v) :: d, ?_, ?_⟩
                · simp [collectData, hen, hnm0, hty, hst,
                        tyRegistered, ht, hout, hh, hd, Except.map]
                · intro nm
                  simp only [List.map_cons, List.mem_cons]
                  constructor
                  · rintro (rfl | hnm)
                    · exact ⟨c, Or.inl rfl, hnm0, hen, hh, v, hout⟩
                    · obtain ⟨c', hc', hp⟩ := (hchar nm).mp hnm
                      exact ⟨c', Or.inr hc', hp⟩
                  · rintro ⟨c', hc', hget, hen', hh', v', hout'⟩
                    rcases hc' with rfl | hc'
                    · left
                      rw [hnm0] at hget
                      exact (Option.some.inj hget).symm
                    · right
                      exact (hchar nm).mpr
                        ⟨c', hc', hget, hen', hh', v', hout'⟩
              · have hhf : nm0.hashable = false := by
                  revert hh; cases nm0.hashable <;> simp
                refine ⟨d, ?_, ?_⟩
                · simp [collectData, hen, hnm0, hty, hst,
                        tyRegistered, ht, hout, hhf, hd]
                · intro nm
                  rw [hchar nm]
                  constructor
                  · rintro ⟨c', hc', hp⟩
                    exact ⟨c', List.mem_cons_of_mem _ hc', hp⟩
                  · rintro ⟨c', hc', hget, hen', hh', v', hout'⟩
                    rcases List.mem_cons.mp hc' with rfl | hc'
                    · rw [hnm0] at hget
                      obtain rfl := Option.some.inj hget
                      simp [hhf] at hh'
                    · exact ⟨c', hc', hget, hen', hh', v', hout'⟩
          · refine ⟨d, ?_, ?_⟩
            · simp [collectData, hen, hnm0, hty, Json.hashable,
                    tyRegistered, ht, hout, hd]
            · intro nm
              rw [hchar nm]
              constructor
              · rintro ⟨c', hc', hp⟩
                exact ⟨c', List.mem_cons_of_mem _ hc', hp⟩
              · rintro ⟨c', hc', hget, hen', hh', v', hout'⟩
                rcases List.mem_cons.mp hc' with rfl | hc'
                · rw [hout] at hout'
                  exact absurd hout' (by simp)
                · exact ⟨c', hc', hget, hen', hh', v', hout'⟩
        · have hen' : confEnabled c = false := by
            revert hen; cases confEnabled c <;> simp
          refine ⟨d, ?_, ?_⟩
          · simp [collectData, hen', hd]
          · intro nm
            rw [hchar nm]
            constructor
            · rintro ⟨c', hc', hp⟩
              exact ⟨c', List.mem_cons_of_mem _ hc', hp⟩
            · rintro ⟨c', hc', hget, henc, hh', v', hout'⟩
              rcases List.mem_cons.mp hc' with rfl | hc'
              · rw [hen'] at henc; exact absurd henc (by simp)
              · exact ⟨c', hc', hget, henc, hh', v', hout'⟩
      | null => simp at htype
      | bool b => simp at htype
      | num n => simp at htype
      | arr xs => simp at htype
      | obj fs => simp at htype

/-- C1: For every loaded sensor configuration (well-formed with a
key-usable name, per the spec's data model of string names unique among
loaded configs), one collection tick (_get_sensor_data) puts that
sensor's name into the payload's data mapping iff the configuration is
enabled and its reader returned a present (non-None) value that tick;
in particular a disabled sensor's name never appears in data regardless
of its reader's outcome, and a reader that raises (ReadResult.exc) only
causes its own key to be omitted while the remaining sensors are
unaffected. -/
theorem c1_collector_membership
    (outcome : JDict → ReadResult) (nodeInfo : Option JDict)
    (configs : List JDict) (now : Nat)
    (hwf : ∀ c ∈ configs, confWF c = true)
    (hhash : ∀ c ∈ configs, confNameHashable c = true)
    (hnodup : (configs.map (fun c => jdGet c "name")).Nodup) :
    ∃ p, getSensorData outcome (some nodeInfo) configs now =
        .ok (some p) ∧
      ∀ c ∈ configs, ∀ nm, jdGet c "name" = some nm →
        (nm ∈ p.data.map Prod.fst ↔
          (confEnabled c = true ∧ ∃ v, outcome c = .ok (some v))) := by
  obtain ⟨d, hd, hchar⟩ := collectData_char outcome configs hwf
  refine ⟨{ source_node_num := (nodeIdentity nodeInfo).1,
            source_node_name := (nodeIdentity nodeInfo).2,
            timestamp := now, data := d }, ?_, ?_⟩
  · simp [getSensorData, hd, Except.map]
  intro c hc nm hnm
  constructor
  · intro hmem
    obtain ⟨c', hc', hget, hen, _, v, hout⟩ := (hchar nm).mp hmem
    have hcc : c' = c :=
      List.inj_on_of_nodup_map hnodup hc' hc (by rw [hget, hnm])
    subst hcc
    exact ⟨hen, v, hout⟩
  · rintro ⟨hen, v, hout⟩
    have hh := hhash c hc
    rw [confNameHashable, hnm] at hh
    exact (hchar nm).mpr ⟨c, hc, hnm, hen, hh, v, hout⟩

/-- A concrete enabled static sensor configuration. -/
def cfgA : JDict :=
  [(.str "name", .str "a"), (.str "type", .str "static_value"),
   (.str "enabled", .bool true)]

/-- A concrete disabled sensor configuration. -/
def cfgB : JDict :=
  [(.str "name", .str "b"), (.str "type", .str "random_value"),
   (.str "enabled", .bool false)]

/-- An enabled sensor configuration whose reader will raise. -/
def cfgC : JDict :=
  [(.str "name", .str "crash"), (.str "type", .str "custom_script"),
   (.str "enabled", .bool true)]

/-- A tick outcome oracle: sensor a reads 7, sensor crash raises,
everything else returns None. -/
def outcomeW : JDict → ReadResult := fun c =>
  if jdGet c "name" = some (.str "a") then .ok (some (.num 7))
  else if jdGet c "name" = some (.str "crash") then .exc
  else .ok none

/-- Witness for C1 at a concrete configuration set and tick. -/
theorem c1_collector_membership_witness :
    (∀ c ∈ [cfgA, cfgB, cfgC], confWF c = true) ∧
    (∀ c ∈ [cfgA, cfgB, cfgC], confNameHashable c = true) ∧
    (([cfgA, cfgB, cfgC].map (fun c => jdGet c "name")).Nodup) ∧
    (∃ p, getSensorData outcomeW (some none) [cfgA, cfgB, cfgC] 3 =
        .ok (some p) ∧
      ∀ c ∈ [cfgA, cfgB, cfgC], ∀ nm, jdGet c "name" = some nm →
        (nm ∈ p.data.map Prod.fst ↔
          (confEnabled c = true ∧
            ∃ v, outcomeW c = .ok (some v)))) :=
  ⟨by decide, by decide, by decide,
   c1_collector_membership outcomeW none [cfgA, cfgB, cfgC] 3
     (by decide) (by decide) (by decide)⟩

/-- A sensors entry with a registered type but no name key at all. -/
def cfgNameless : JDict :=
  [(.str "type", .str "static_value"), (.str "enabled", .bool true)]

/-- C2, evaluated at the failing input: an entry with no name key is
retained by _load_sensor_configurations (with or without the BME280
library), because the truthy default of
sensor_conf.get('name', 'UnnamedSensor') passes the validation that the
claim -- and the code's own "missing name or type ... Skipping" warning
-- says should drop it; the retained entry then makes the collection
tick raise KeyError at sensor_conf["name"], outside the per-sensor try
block. -/
theorem c2_load_retains_nameless :
    loadSensorConfigurations true [cfgNameless] = [cfgNameless] ∧
    loadSensorConfigurations false [cfgNameless] = [cfgNameless] ∧
    collectData (fun _ => .ok none) [cfgNameless] = .error () :=
  ⟨rfl, rfl, rfl⟩

/-- Parameters naming a command that does not exist. -/
def scriptParamsW : JDict :=
  [(.str "script_path", .str "nonexistent_cmd")]

/-- An enabled custom_script sensor configuration. -/
def cfgCustom : JDict :=
  [(.str "name", .str "script_out"), (.str "type", .str "custom_script"),
   (.str "enabled", .bool true), (.str "params", .obj scriptParamsW)]

/-- A second, healthy sensor next to the custom-script one. -/
def cfgOther : JDict :=
  [(.str "name", .str "other"), (.str "type", .str "static_value"),
   (.str "enabled", .bool true)]

/-- Tick outcomes where the custom_script sensor reads via
_read_custom_script_value against a missing executable and the other
sensor reads 42. -/
def outcomeScript : JDict → ReadResult := fun c =>
  if jdGet c "name" = some (.str "script_out") then
    .ok (readCustomScriptValue (fun _ _ => .fileNotFound) scriptParamsW)
  else .ok (some (.num 42))

/-- C3: with a truthy script_path, _read_custom_script_value returns the
trimmed standard output exactly when the single command run exits zero
within the timeout, and returns None on a nonzero exit, a timeout, a
missing executable, or any other execution failure (the oracle is
consulted once: there is no retry); and a collection cycle in which the
custom-script reader came back absent still completes with the other
sensor's value intact. -/
theorem c3_custom_script (run : Json → Json → ScriptOutcome)
    (params : JDict)
    (h : (jdGetD params "script_path" .null).truthy = true) :
    (∀ out err,
        run (jdGetD params "script_path" .null)
            (jdGetD params "timeout" (.num 5)) = .completed 0 out err →
        readCustomScriptValue run params = some (.str (strTrim out))) ∧
    (∀ rc out err, rc ≠ 0 →
        run (jdGetD params "script_path" .null)
            (jdGetD params "timeout" (.num 5)) = .completed rc out err →
        readCustomScriptValue run params = none) ∧
    (run (jdGetD params "script_path" .null)
        (jdGetD params "timeout" (.num 5)) = .timedOut →
      readCustomScriptValue run params = none) ∧
    (run (jdGetD params "script_path" .null)
        (jdGetD params "timeout" (.num 5)) = .fileNotFound →
      readCustomScriptValue run params = none) ∧
    (run (jdGetD params "script_path" .null)
        (jdGetD params "timeout" (.num 5)) = .otherError →
      readCustomScriptValue run params = none) ∧
    collectData outcomeScript [cfgCustom, cfgOther] =
      .ok [(.str "other", .num 42)] := by
  refine ⟨?_, ?_, ?_, ?_, ?_, rfl⟩
  · intro out err hrun
    simp [readCustomScriptValue, h, hrun]
  · intro rc out err hrc hrun
    simp [readCustomScriptValue, h, hrun, hrc]
  · intro hrun
    simp [readCustomScriptValue, h, hrun]
  · intro hrun
    simp [readCustomScriptValue, h, hrun]
  · intro hrun
    simp [readCustomScriptValue, h, hrun]

/-- Witness for C3: a command printing hello with a trailing newline and
exiting zero yields the collected value "hello". -/
theorem c3_custom_script_witness :
    ((jdGetD [((Json.str "script_path"), Json.str "echo hello")]
        "script_path" .null).truthy = true) ∧
    readCustomScriptValue (fun _ _ => .completed 0 "hello\n" "")
      [((Json.str "script_path"), Json.str "echo hello")] =
      some (.str "hello") :=
  ⟨by decide,
   by
    have h := (c3_custom_script (fun _ _ => .completed 0 "hello\n" "")
      [((Json.str "script_path"), Json.str "echo hello")]
      (by decide)).1 "hello\n" "" rfl
    simpa using h⟩

/-- Whether onReceive claims the packet for itself (returning without
calling super().onReceive): the packet must be on the ASNIP port and
either carry falsy payload bytes or be fully processed (payload decodes
to a dict and the sender id resolves), mirroring the two early returns
of the source. -/
def asnipHandled (dec : List Nat → Option Json)
    (nodeNumFn : Json → Except Unit Json) (pkt : Packet) : Bool :=
  match pkt.decoded with
  | none => false
  | some d =>
    if d.portnum = ASNIP_PORTNUM then
      if d.payload.isEmpty then true
      else
        match dec d.payload with
        | none => false
        | some j =>
          match j with
          | .obj _ =>
            (match (if pkt.fromId.truthy then nodeNumFn pkt.fromId
                    else .ok .null) with
             | .ok _ => true
             | .error _ => false)
          | _ => false
    else false

/-- C4 counterexample: a packet on the ASNIP port whose payload decodes
successfully is appended as a remote entry and NOT delegated to the next
handler (the source returns with the comment "Packet handled by ASNIP"),
refuting the claim that every inbound packet is forwarded onward. -/
theorem c4_counterexample :
    (onReceive (fun _ => some (.obj [])) (fun _ => .ok .null)
      (fun _ => "x") true 0 ⟨[], .missing⟩
      ⟨some ⟨ASNIP_PORTNUM, [123]⟩, .null, .null, .null⟩).2 = false ∧
    (onReceive (fun _ => some (.obj [])) (fun _ => .ok .null)
      (fun _ => "x") true 0 ⟨[], .missing⟩
      ⟨some ⟨ASNIP_PORTNUM, [123]⟩, .null, .null, .null⟩).1.log.length
      = 1 :=
  ⟨rfl, rfl⟩

/-- C4 amended: onReceive delegates to the next registered handler for
every inbound packet except those it claims for itself -- ASNIP-port
packets that are fully processed (decoded and appended) and ASNIP-port
packets with falsy payload bytes; in particular packets on other ports
and packets whose payload fails to decode are always forwarded. -/
theorem c4_amended_delegation (dec : List Nat → Option Json)
    (nodeNumFn : Json → Except Unit Json) (ser : Json → String)
    (ifacePresent : Bool) (now : Nat) (s : SysState) (pkt : Packet) :
    (onReceive dec nodeNumFn ser ifacePresent now s pkt).2 =
      !(ifacePresent && asnipHandled dec nodeNumFn pkt) := by
  cases ifacePresent with
  | false => simp [onReceive]
  | true =>
    cases hdec : pkt.decoded with
    | none => simp [onReceive, asnipHandled, hdec]
    | some d =>
      by_cases hport : d.portnum = ASNIP_PORTNUM
      · by_cases hpay : d.payload.isEmpty
        · simp [onReceive, asnipHandled, hdec, hport, hpay]
        · rcases hdecode : dec d.payload with _ | j
          · simp [onReceive, asnipHandled, hdec, hport, hpay, hdecode]
          · cases j with
            | obj fields =>
              rcases hnn : (if pkt.fromId.truthy then nodeNumFn pkt.fromId
                  else .ok .null) with e | num
              · simp [onReceive, asnipHandled, hdec, hport, hpay,
                      hdecode, hnn]
              · simp [onReceive, asnipHandled, hdec, hport, hpay,
                      hdecode, hnn]
            | null =>
              simp [onReceive, asnipHandled, hdec, hport, hpay, hdecode]
            | bool b =>
              simp [onReceive, asnipHandled, hdec, hport, hpay, hdecode]
            | num n =>
              simp [onReceive, asnipHandled, hdec, hport, hpay, hdecode]
            | str t =>
              simp [onReceive, asnipHandled, hdec, hport, hpay, hdecode]
            | arr xs =>
              simp [onReceive, asnipHandled, hdec, hport, hpay, hdecode]
      · simp [onReceive, asnipHandled, hdec, hport]

/-- C5: a packet whose decoded section is absent, or whose portnum does
not equal the reserved ASNIP port, leaves the in-memory log and the
persisted file untouched and is passed through to the next handler. -/
theorem c5_non_matching_passthrough (dec : List Nat → Option Json)
    (nodeNumFn : Json → Except Unit Json) (ser : Json → String)
    (ifacePresent : Bool) (now : Nat) (s : SysState) (pkt : Packet)
    (h : ∀ d, pkt.decoded = some d → d.portnum ≠ ASNIP_PORTNUM) :
    onReceive dec nodeNumFn ser ifacePresent now s pkt = (s, true) := by
  cases ifacePresent with
  | false => simp [onReceive]
  | true =>
    cases hdec : pkt.decoded with
    | none => simp [onReceive, hdec]
    | some d => simp [onReceive, hdec, h d hdec]

/-- Witness for C5 at a packet carrying portnum 1. -/
theorem c5_non_matching_passthrough_witness :
    (∀ d, (Packet.mk (some ⟨.num 1, [7]⟩) .null .null .null).decoded
        = some d → d.portnum ≠ ASNIP_PORTNUM) ∧
    onReceive (fun _ => some (.obj [])) (fun _ => .ok .null)
      (fun _ => "y") true 2 ⟨[.num 9], .missing⟩
      (Packet.mk (some ⟨.num 1, [7]⟩) .null .null .null) =
      (⟨[.num 9], .missing⟩, true) :=
  ⟨by intro d hd; cases hd; decide,
   c5_non_matching_passthrough (fun _ => some (.obj []))
     (fun _ => .ok .null) (fun _ => "y") true 2 ⟨[.num 9], .missing⟩
     (Packet.mk (some ⟨.num 1, [7]⟩) .null .null .null)
     (by intro d hd; cases hd; decide)⟩

/-- C6 counterexample: for a missing log file, _load_log_data yields the
empty in-memory sequence but does NOT rewrite the file to an empty array
(the source only logs "Will be created on first save"), refuting the
claim that every failure state immediately persists the empty state. -/
theorem c6_counterexample :
    (loadLogData (fun _ => none) (fun _ => "[]") .missing).1 = [] ∧
    (loadLogData (fun _ => none) (fun _ => "[]") .missing).2
      = .missing ∧
    FileState.missing ≠
      FileState.present ((fun _ => "[]") (Json.arr [])) :=
  ⟨rfl, rfl, by decide⟩

/-- C6 amended: _load_log_data always yields the empty in-memory
sequence without raising on a missing, blank, malformed or non-array
file, but rewrites the file to the serialized empty array only in the
malformed and non-array cases; a missing or blank file is left exactly
as it was (created on first save), and a well-formed array loads as-is
with no write. -/
theorem c6_amended_load_log (parse : String → Option Json)
    (ser : Json → String) (content : String) :
    loadLogData parse ser .missing = ([], .missing) ∧
    ((strTrim content).isEmpty = true →
      loadLogData parse ser (.present content) = ([], .present content)) ∧
    ((strTrim content).isEmpty = false → parse content = none →
      loadLogData parse ser (.present content) =
        ([], .present (ser (.arr [])))) ∧
    (∀ j, (strTrim content).isEmpty = false → parse content = some j →
      (∀ xs, j ≠ .arr xs) →
      loadLogData parse ser (.present content) =
        ([], .present (ser (.arr [])))) ∧
    (∀ xs, (strTrim content).isEmpty = false →
      parse content = some (.arr xs) →
      loadLogData parse ser (.present content) = (xs, .present content)) := by
  refine ⟨rfl, ?_, ?_, ?_, ?_⟩
  · intro hblank
    simp [loadLogData, hblank]
  · intro hblank hparse
    simp [loadLogData, hblank, hparse, saveLogData, Json.serializable,
          Json.serializableList]
  · intro j hblank hparse hnarr
    cases j with
    | arr xs => exact absurd rfl (hnarr xs)
    | null =>
      simp [loadLogData, hblank, hparse, saveLogData, Json.serializable,
            Json.serializableList]
    | bool b =>
      simp [loadLogData, hblank, hparse, saveLogData, Json.serializable,
            Json.serializableList]
    | num n =>
      simp [loadLogData, hblank, hparse, saveLogData, Json.serializable,
            Json.serializableList]
    | str t =>
      simp [loadLogData, hblank, hparse, saveLogData, Json.serializable,
            Json.serializableList]
    | obj fs =>
      simp [loadLogData, hblank, hparse, saveLogData, Json.serializable,
            Json.serializableList]
  · intro xs hblank hparse
    simp [loadLogData, hblank, hparse]

/-- Witness for C6 amended: a corrupted existing file resets to the
serialized empty array, and a blank file is left alone. -/
theorem c6_amended_load_log_witness :
    ((strTrim "garbage").isEmpty = false) ∧
    ((fun _ => (none : Option Json)) "garbage" = none) ∧
    loadLogData (fun _ => none) (fun _ => "[]") (.present "garbage") =
      ([], .present "[]") ∧
    ((strTrim "  ").isEmpty = true) ∧
    loadLogData (fun _ => none) (fun _ => "[]") (.present "  ") =
      ([], .present "  ") :=
  ⟨by decide, rfl,
   (c6_amended_load_log (fun _ => none) (fun _ => "[]")
     "garbage").2.2.1 (by decide) rfl,
   by decide,
   (c6_amended_load_log (fun _ => none) (fun _ => "[]") "  ").2.1
     (by decide)⟩

/-- C7 counterexample: _get_sensor_data returns None (not a payload)
when no transport interface is bound, and raises KeyError when an
enabled loaded configuration has no name key -- so it does not return a
non-null payload for every plugin state and configuration set. -/
theorem c7_counterexample :
    getSensorData (fun _ => .ok none) none [] 0 = .ok none ∧
    getSensorData (fun _ => .ok none) (some none) [cfgNameless] 0 =
      .error () :=
  ⟨rfl, rfl⟩

/-- C7 amended: whenever an interface is bound and every loaded
configuration is well-formed (name key present, registered string type
-- the shape §3 guarantees of loaded configs), the Collector returns a
non-null payload carrying the identity provider's id and name and the
tick timestamp, with the name defaulting to "Unknown Local Node" and the
id to None when the identity provider yields a falsy node_info. -/
theorem c7_amended_payload (outcome : JDict → ReadResult)
    (nodeInfo : Option JDict) (configs : List JDict) (now : Nat)
    (hwf : ∀ c ∈ configs, confWF c = true) :
    ∃ p, getSensorData outcome (some nodeInfo) configs now =
        .ok (some p) ∧
      p.source_node_num = (nodeIdentity nodeInfo).1 ∧
      p.source_node_name = (nodeIdentity nodeInfo).2 ∧
      p.timestamp = now ∧
      (nodeInfo = none →
        p.source_node_num = .null ∧
          p.source_node_name = .str "Unknown Local Node") ∧
      (∀ d, nodeInfo = some d → d.isEmpty = true →
        p.source_node_num = .null ∧
          p.source_node_name = .str "Unknown Local Node") := by
  obtain ⟨d, hd, _⟩ := collectData_char outcome configs hwf
  refine ⟨{ source_node_num := (nodeIdentity nodeInfo).1,
            source_node_name := (nodeIdentity nodeInfo).2,
            timestamp := now, data := d }, ?_, rfl, rfl, rfl, ?_, ?_⟩
  · simp [getSensorData, hd, Except.map]
  · rintro rfl
    exact ⟨rfl, rfl⟩
  · rintro d' rfl hempty
    simp [nodeIdentity, hempty]

/-- Witness for C7 amended at an empty node_info dict (falsy identity)
and one enabled sensor. -/
theorem c7_amended_payload_witness :
    (∀ c ∈ [cfgA], confWF c = true) ∧
    (∃ p, getSensorData outcomeW (some (some [])) [cfgA] 5 =
        .ok (some p) ∧
      p.source_node_num = (nodeIdentity (some [])).1 ∧
      p.source_node_name = (nodeIdentity (some [])).2 ∧
      p.timestamp = 5 ∧
      ((some [] : Option JDict) = none →
        p.source_node_num = .null ∧
          p.source_node_name = .str "Unknown Local Node") ∧
      (∀ d, (some [] : Option JDict) = some d → d.isEmpty = true →
        p.source_node_num = .null ∧
          p.source_node_name = .str "Unknown Local Node")) :=
  ⟨by decide, c7_amended_payload outcomeW (some []) [cfgA] 5 (by decide)⟩

/-- The state part of onReceive factors through remoteEntry: an accepted
packet appends its remote entry and saves, anything else leaves the
state alone. -/
theorem onReceive_state (dec : List Nat → Option Json)
    (nodeNumFn : Json → Except Unit Json) (ser : Json → String)
    (now : Nat) (s : SysState) (pkt : Packet) :
    (onReceive dec nodeNumFn ser true now s pkt).1 =
      (match remoteEntry dec nodeNumFn now pkt with
       | some e => ⟨s.log ++ [e], saveLogData ser (s.log ++ [e]) s.file⟩
       | none => s) := by
  cases hdec : pkt.decoded with
  | none => simp [onReceive, remoteEntry, hdec]
  | some d =>
    by_cases hport : d.portnum = ASNIP_PORTNUM
    · by_cases hpay : d.payload.isEmpty
      · simp [onReceive, remoteEntry, hdec, hport, hpay]
      · rcases hdecode : dec d.payload with _ | j
        · simp [onReceive, remoteEntry, hdec, hport, hpay, hdecode]
        · cases j with
          | obj fields =>
            rcases hnn : (if pkt.fromId.truthy then nodeNumFn pkt.fromId
                else .ok .null) with e | num
            · simp [onReceive, remoteEntry, hdec, hport, hpay,
                    hdecode, hnn]
            · simp [onReceive, remoteEntry, hdec, hport, hpay,
                    hdecode, hnn]
          | null =>
            simp [onReceive, remoteEntry, hdec, hport, hpay, hdecode]
          | bool b =>
            simp [onReceive, remoteEntry, hdec, hport, hpay, hdecode]
          | num n =>
            simp [onReceive, remoteEntry, hdec, hport, hpay, hdecode]
          | str t =>
            simp [onReceive, remoteEntry, hdec, hport, hpay, hdecode]
          | arr xs =>
            simp [onReceive, remoteEntry, hdec, hport, hpay, hdecode]
    · simp [onReceive, remoteEntry, hdec, hport]

/-- One event appends exactly the entry it contributes (none when the
tick raised or the receipt was not accepted). -/
theorem stepEvent_log (dec : List Nat → Option Json)
    (nodeNumFn : Json → Except Unit Json) (ser : Json → String)
    (s : SysState) (ev : Event) :
    (stepEvent dec nodeNumFn ser s ev).log =
      s.log ++ (entryOf dec nodeNumFn ev).toList := by
  cases ev with
  | tick now p =>
    cases hse : selfLogEntry now p with
    | error e => simp [stepEvent, tickStep, entryOf, hse, Except.toOption]
    | ok e => simp [stepEvent, tickStep, entryOf, hse, Except.toOption]
  | recv now pkt =>
    rw [stepEvent, onReceive_state]
    cases hre : remoteEntry dec nodeNumFn now pkt with
    | none => simp [entryOf, hre]
    | some e => simp [entryOf, hre]

/-- Running a sequence of events appends, in occurrence order, exactly
the entries contributed by the completed ticks and accepted receipts. -/
theorem runEvents_log (dec : List Nat → Option Json)
    (nodeNumFn : Json → Except Unit Json) (ser : Json → String) :
    ∀ (evs : List Event) (s : SysState),
    (runEvents dec nodeNumFn ser s evs).log =
      s.log ++ evs.filterMap (entryOf dec nodeNumFn)
  | [], s => by simp [runEvents]
  | ev :: evs, s => by
    have hstep := stepEvent_log dec nodeNumFn ser s ev
    have hrec := runEvents_log dec nodeNumFn ser evs
      (stepEvent dec nodeNumFn ser s ev)
    rw [runEvents] at hrec ⊢
    rw [List.foldl_cons, hrec, hstep]
    cases hev : entryOf dec nodeNumFn ev with
    | none => simp [List.filterMap_cons, hev]
    | some e => simp [List.filterMap_cons, hev]

/-- One event preserves validity of the persisted file. -/
theorem stepEvent_file_valid (dec : List Nat → Option Json)
    (nodeNumFn : Json → Except Unit Json) (ser : Json → String)
    (s : SysState) (ev : Event) (h : FileValid ser s.file) :
    FileValid ser (stepEvent dec nodeNumFn ser s ev).file := by
  have hsave : ∀ (l : List Json) (f : FileState), FileValid ser f →
      FileValid ser (saveLogData ser l f) := by
    intro l f hf
    rw [saveLogData]
    split
    · exact ⟨l, rfl⟩
    · exact hf
  cases ev with
  | tick now p =>
    cases hse : selfLogEntry now p with
    | error e => simpa [stepEvent, tickStep, hse] using h
    | ok e =>
      simp only [stepEvent, tickStep, hse]
      exact hsave _ _ h
  | recv now pkt =>
    rw [stepEvent, onReceive_state]
    cases hre : remoteEntry dec nodeNumFn now pkt with
    | none => exact h
    | some e => exact hsave _ _ h

/-- Running any event sequence preserves validity of the persisted
file. -/
theorem runEvents_file_valid (dec : List Nat → Option Json)
    (nodeNumFn : Json → Except Unit Json) (ser : Json → String) :
    ∀ (evs : List Event) (s : SysState), FileValid ser s.file →
    FileValid ser (runEvents dec nodeNumFn ser s evs).file
  | [], _, h => h
  | ev :: evs, s, h => by
    rw [runEvents, List.foldl_cons]
    exact runEvents_file_valid dec nodeNumFn ser evs _
      (stepEvent_file_valid dec nodeNumFn ser s ev h)

/-- An event contributes an entry exactly when it is a completed tick or
an accepted receipt. -/
theorem entryOf_isSome (dec : List Nat → Option Json)
    (nodeNumFn : Json → Except Unit Json) (ev : Event) :
    (entryOf dec nodeNumFn ev).isSome =
      (isCompletedTick ev || isAcceptedRecv dec nodeNumFn ev) := by
  cases ev with
  | tick now p => simp [entryOf, isCompletedTick, isAcceptedRecv]
  | recv now pkt => simp [entryOf, isCompletedTick, isAcceptedRecv]

/-- Counting a filterMap by the defined entries. -/
theorem length_filterMap_eq_length_filter {α β : Type}
    (f : α → Option β) :
    ∀ l : List α,
    (l.filterMap f).length = (l.filter (fun a => (f a).isSome)).length
  | [] => rfl
  | a :: l => by
    cases ha : f a <;>
      simp [List.filterMap_cons, List.filter_cons, ha,
            length_filterMap_eq_length_filter f l]

/-- A filter by a disjunction of mutually exclusive predicates counts as
the sum of the two filters. -/
theorem length_filter_or_disjoint {α : Type} (p q : α → Bool)
    (hpq : ∀ a, ¬(p a = true ∧ q a = true)) :
    ∀ l : List α,
    (l.filter (fun a => p a || q a)).length =
      (l.filter p).length + (l.filter q).length
  | [] => rfl
  | a :: l => by
    have ih := length_filter_or_disjoint p q hpq l
    rcases hp : p a with _ | _ <;> rcases hq : q a with _ | _ <;>
      simp [List.filter_cons, hp, hq, ih, Nat.add_assoc, Nat.add_comm,
            Nat.add_left_comm]
    exact absurd ⟨hp, hq⟩ (hpq a)

/-- C8: starting from an empty log store with the empty array persisted,
running any interleaving of broadcast ticks and inbound receipts leaves
the log holding, in occurrence order, exactly one Self entry per
completed tick and one Remote entry per accepted receipt -- N + M
entries in total -- and the persisted file is always the serialization
of an entry sequence (a syntactically valid array). -/
theorem c8_log_store_counts (dec : List Nat → Option Json)
    (nodeNumFn : Json → Except Unit Json) (ser : Json → String)
    (evs : List Event) :
    (runEvents dec nodeNumFn ser ⟨[], .present (ser (.arr []))⟩ evs).log
      = evs.filterMap (entryOf dec nodeNumFn) ∧
    (runEvents dec nodeNumFn ser ⟨[], .present (ser (.arr []))⟩
        evs).log.length =
      (evs.filter isCompletedTick).length +
        (evs.filter (isAcceptedRecv dec nodeNumFn)).length ∧
    FileValid ser
      (runEvents dec nodeNumFn ser ⟨[], .present (ser (.arr []))⟩
        evs).file := by
  have hlog := runEvents_log dec nodeNumFn ser evs
    ⟨[], .present (ser (.arr []))⟩
  refine ⟨by simpa using hlog, ?_, ?_⟩
  · rw [hlog]
    simp only [List.nil_append]
    rw [length_filterMap_eq_length_filter]
    have hfun : (fun ev => (entryOf dec nodeNumFn ev).isSome) =
        (fun ev => isCompletedTick ev ||
          isAcceptedRecv dec nodeNumFn ev) := by
      funext ev
      exact entryOf_isSome dec nodeNumFn ev
    rw [hfun]
    exact length_filter_or_disjoint _ _
      (by
        intro ev
        rintro ⟨h1, h2⟩
        cases ev with
        | tick now p => simp [isAcceptedRecv] at h2
        | recv now pkt => simp [isCompletedTick] at h1) evs
  · exact runEvents_file_valid dec nodeNumFn ser evs _
      ⟨[], rfl⟩

/-- The tagged fields of a self entry. -/
theorem selfLogEntry_fields (now : Nat) (p : Payload) (e : Json)
    (h : selfLogEntry now p = .ok e) :
    Json.field e "type" = some (.str "self") ∧
    Json.field e "rssi" = some .null ∧
    Json.field e "snr" = some .null := by
  rw [selfLogEntry] at h
  rcases hx : hexOfNodeNum p.source_node_num with e1 | hexJ
  · rw [hx] at h
    exact absurd h (by simp)
  · rw [hx] at h
    have he := Except.ok.inj h
    subst he
    exact ⟨rfl, rfl, rfl⟩

/-- The type tag of an accepted remote entry. -/
theorem remoteEntry_type (dec : List Nat → Option Json)
    (nodeNumFn : Json → Except Unit Json) (now : Nat) (pkt : Packet)
    (e : Json) (h : remoteEntry dec nodeNumFn now pkt = some e) :
    Json.field e "type" = some (.str "remote") := by
  rcases hd : pkt.decoded with _ | d
  · rw [remoteEntry, hd] at h
    exact absurd h (by simp)
  · rw [remoteEntry, hd] at h
    split at h
    · exact absurd h (by simp)
    · split at h
      · split at h
        · split at h
          · have he := Option.some.inj h
            subst he
            rfl
          · exact absurd h (by simp)
        · exact absurd h (by simp)
      · exact absurd h (by simp)

/-- C10: every Self entry appended by the broadcast loop carries the
literal type tag "self" and present-but-null rssi and snr fields; and in
every log state reachable from the empty store by ticks and receipts, an
entry tagged "self" has null rssi and snr (remote entries carry the
distinct tag "remote", so the tag separates the two origins). -/
theorem c10_self_entry_invariant (dec : List Nat → Option Json)
    (nodeNumFn : Json → Except Unit Json) (ser : Json → String)
    (evs : List Event) (now : Nat) (p : Payload) (e : Json) :
    (selfLogEntry now p = .ok e →
      Json.field e "type" = some (.str "self") ∧
      Json.field e "rssi" = some .null ∧
      Json.field e "snr" = some .null) ∧
    (∀ e' ∈ (runEvents dec nodeNumFn ser
        ⟨[], .present (ser (.arr []))⟩ evs).log,
      Json.field e' "type" = some (.str "self") →
      Json.field e' "rssi" = some .null ∧
      Json.field e' "snr" = some .null) := by
  refine ⟨selfLogEntry_fields now p e, ?_⟩
  intro e' hmem htype
  rw [runEvents_log, List.nil_append] at hmem
  obtain ⟨ev, _, hev⟩ := List.mem_filterMap.mp hmem
  cases ev with
  | tick n q =>
    rcases hse : selfLogEntry n q with e1 | e2
    · rw [entryOf, hse] at hev
      exact absurd hev (by simp [Except.toOption])
    · rw [entryOf, hse] at hev
      rw [Except.toOption] at hev
      have he := Option.some.inj hev
      subst he
      exact (selfLogEntry_fields n q e2 hse).2
  | recv n pkt =>
    rw [entryOf] at hev
    have ht := remoteEntry_type dec nodeNumFn n pkt e' hev
    rw [ht] at htype
    exact absurd (Json.str.inj (Option.some.inj htype)) (by decide)

/-- A concrete payload for the C10 witness. -/
def payloadW : Payload :=
  { source_node_num := .num 3, source_node_name := .str "node-a",
    timestamp := 1, data := [(.str "a", .num 7)] }

/-- The self entry the broadcast loop builds for payloadW at time 1. -/
def selfEntryW : Json :=
  .obj [(.str "log_timestamp", .num 1),
        (.str "type", .str "self"),
        (.str "source_node_num", .num 3),
        (.str "source_node_hex", .str ("!" ++ hex8 3)),
        (.str "rssi", .null),
        (.str "snr", .null),
        (.str "payload", payloadToJson payloadW)]

/-- Witness for C10 at a concrete tick. -/
theorem c10_self_entry_invariant_witness :
    (selfLogEntry 1 payloadW = .ok selfEntryW) ∧
    (Json.field selfEntryW "type" = some (.str "self") ∧
     Json.field selfEntryW "rssi" = some .null ∧
     Json.field selfEntryW "snr" = some .null) :=
  ⟨rfl,
   (c10_self_entry_invariant (fun _ => none) (fun _ => .ok .null)
     (fun _ => "z") [] 1 payloadW selfEntryW).1 rfl⟩

/-- A concrete plugin state with one queued payload and both worker
threads created. -/
def pluginStateW : PluginState :=
  { running := true, messageQueue := [.obj []],
    hasQueueProcessorThread := true, hasBroadcastThread := true,
    log := [.num 1], file := .missing, ifacePresent := true }

/-- C9 counterexample: stop does not drain the outbound queue -- on a
state with one residual queued payload it leaves the item in place and
even appends the None sentinel, so the queue ends non-empty, refuting
the claim that stop drains and discards residual queued items (the
source method also takes no timeout parameter; its joins use a
hardcoded 5-second timeout). -/
theorem c9_counterexample :
    (stop (fun _ => "s") pluginStateW).messageQueue =
      [.obj [], .null] ∧
    (stop (fun _ => "s") pluginStateW).messageQueue ≠ [] :=
  ⟨rfl, by decide⟩

/-- C9 amended: stop (which takes no timeout argument) clears the
cancellation signal, appends the None sentinel to the queue exactly when
a processor thread exists, leaves the queue otherwise undrained and the
in-memory log unchanged, persists the log store exactly when an
interface is bound, and joins each worker with the hardcoded 5-second
best-effort timeout. -/
theorem c9_amended_stop (ser : Json → String) (s : PluginState) :
    (stop ser s).running = false ∧
    (s.hasQueueProcessorThread = true →
      (stop ser s).messageQueue = s.messageQueue ++ [.null]) ∧
    (s.hasQueueProcessorThread = false →
      (stop ser s).messageQueue = s.messageQueue) ∧
    (stop ser s).log = s.log ∧
    (s.ifacePresent = true →
      (stop ser s).file = saveLogData ser s.log s.file) ∧
    (s.ifacePresent = false → (stop ser s).file = s.file) ∧
    STOP_JOIN_TIMEOUT = 5 := by
  refine ⟨rfl, ?_, ?_, rfl, ?_, ?_, rfl⟩
  · intro h
    simp [stop, h]
  · intro h
    simp [stop, h]
  · intro h
    simp [stop, h]
  · intro h
    simp [stop, h]

/-- Witness for C9 amended at the concrete state. -/
theorem c9_amended_stop_witness :
    (stop (fun _ => "s") pluginStateW).running = false ∧
    (stop (fun _ => "s") pluginStateW).messageQueue =
      pluginStateW.messageQueue ++ [.null] ∧
    (stop (fun _ => "s") pluginStateW).log = pluginStateW.log ∧
    (stop (fun _ => "s") pluginStateW).file =
      saveLogData (fun _ => "s") pluginStateW.log pluginStateW.file :=
  ⟨(c9_amended_stop (fun _ => "s") pluginStateW).1,
   (c9_amended_stop (fun _ => "s") pluginStateW).2.1 rfl,
   (c9_amended_stop (fun _ => "s") pluginStateW).2.2.2.1,
   (c9_amended_stop (fun _ => "s") pluginStateW).2.2.2.2.1 rfl⟩

end ASNIP
